import Mathlib

/-!
Shallow embedding of the BareConductive midi-piano firmware core
(`src/Midi_Piano/Midi_Piano.ino`): the touch-event-to-MIDI pipeline.

Serial writes are modelled as the list of bytes appended to the byte sink
(`mySerial.write`), and `Serial.print` note reports as a list of
(note, "on"/"off") pairs.  Touch masks are modelled as `Nat → Bool`
predicates over electrode indices; the MPR121 library's edge queries
`isNewTouch` / `isNewRelease` compare the current mask against the mask
retained from the previous poll.
-/

namespace MidiPiano

/-- Table `const uint8_t MELODIC_NOTES[] = {60, 61, ..., 71}`. -/
def MELODIC_NOTES : List Nat := [60, 61, 62, 63, 64, 65, 66, 67, 68, 69, 70, 71]

/-- Table `const uint8_t PERCUSSION_NOTES[] = {49, 35, 57, 36, 41, 51, 43, 28, 27, 83, 76, 58}`. -/
def PERCUSSION_NOTES : List Nat := [49, 35, 57, 36, 41, 51, 43, 28, 27, 83, 76, 58]

/-- Constant `const bool MPR121_DATASTREAM_ENABLE = false`. -/
def MPR121_DATASTREAM_ENABLE : Bool := false

/-- The `MELODIC_INSTRUMENT` configuration flag as an enum of the two
instrument modes it selects between (`true` = melodic, `false` = percussion). -/
inductive InstrumentMode
  | melodic
  | percussion
deriving DecidableEq, Repr

/-- The note table the loop body indexes for a given mode:
`MELODIC_NOTES` when `MELODIC_INSTRUMENT`, else `PERCUSSION_NOTES`. -/
def noteTable : InstrumentMode → List Nat
  | .melodic => MELODIC_NOTES
  | .percussion => PERCUSSION_NOTES

/-- Function `talkMIDI(byte cmd, byte data1, byte data2)`: writes `cmd`, then `data1`,
then `data2` only when `(cmd & 0xF0) <= 0xB0`.  Result: the bytes written to
`mySerial`, in order. -/
def talkMIDI (cmd data1 data2 : Nat) : List Nat :=
  [cmd, data1] ++ (if cmd &&& 0xF0 ≤ 0xB0 then [data2] else [])

/-- Function `noteOn(byte channel, byte note, byte attack_velocity)`:
`talkMIDI((0x90 | channel), note, attack_velocity)`. -/
def noteOn (channel note attack_velocity : Nat) : List Nat :=
  talkMIDI (0x90 ||| channel) note attack_velocity

/-- Function `noteOff(byte channel, byte note, byte release_velocity)`:
`talkMIDI((0x80 | channel), note, release_velocity)`. -/
def noteOff (channel note release_velocity : Nat) : List Nat :=
  talkMIDI (0x80 ||| channel) note release_velocity

/-- Function `setupMidi()`: channel volume to 127, bank select by mode, then program
change with the configured `INSTRUMENT` number (the two configuration
constants are parameters here). -/
def setupMidi (mode : InstrumentMode) (instrument : Nat) : List Nat :=
  talkMIDI 0xB0 0x07 127 ++
    (match mode with
      | .melodic => talkMIDI 0xB0 0 0x00
      | .percussion => talkMIDI 0xB0 0 0x78) ++
    talkMIDI 0xC0 instrument 0

/-- Modelled from the spec: the MPR121 touch tracker (the library is not part
of this repository).  `isNewTouch(i)` holds when electrode `i` is touched in
the current poll's mask but was not in the previous poll's retained mask
(§4.1: rising edge = newly touched). -/
def isNewTouch (prev cur : Nat → Bool) (i : Nat) : Bool :=
  cur i && !(prev i)

/-- Modelled from the spec: query `isNewRelease(i)` holds when electrode `i` was
touched in the previous poll's retained mask but is not in the current one
(§4.1: falling edge = newly released). -/
def isNewRelease (prev cur : Nat → Bool) (i : Nat) : Bool :=
  !(cur i) && prev i

/-- Assignment `note = MELODIC_NOTES[11-i]` / `note = PERCUSSION_NOTES[11-i]`: the
electrode-to-note mapping computed at the top of each loop iteration. -/
def mapNote (mode : InstrumentMode) (i : Nat) : Nat :=
  (noteTable mode).getD (11 - i) 0

/-- One iteration of the `for (int i=0; i<12; i++)` body of `loop()`:
assigns the shared `note` register from the mode's table, then on a new touch
emits `noteOn(0, note, 0x60)` and reports `(note, "on")`, on a new release
emits `noteOff(0, note, 0x60)` and reports `(note, "off")`, else emits
nothing.  Result: (new value of the `note` register, bytes written, reports
printed). -/
def loopIter (mode : InstrumentMode) (prev cur : Nat → Bool) (i : Nat) :
    Nat × List Nat × List (Nat × String) :=
  let note := mapNote mode i
  if isNewTouch prev cur i then
    (note, noteOn 0 note 0x60,
      if MPR121_DATASTREAM_ENABLE then [] else [(note, "on")])
  else if isNewRelease prev cur i then
    (note, noteOff 0 note 0x60,
      if MPR121_DATASTREAM_ENABLE then [] else [(note, "off")])
  else
    (note, [], [])

/-- Sequencing of one loop iteration after an accumulated state:
the `note` register is replaced, bytes and reports are appended in order. -/
def loopStep (mode : InstrumentMode) (prev cur : Nat → Bool)
    (acc : Nat × List Nat × List (Nat × String)) (i : Nat) :
    Nat × List Nat × List (Nat × String) :=
  ((loopIter mode prev cur i).1,
    acc.2.1 ++ (loopIter mode prev cur i).2.1,
    acc.2.2 ++ (loopIter mode prev cur i).2.2)

/-- One full pass of `loop()` after `MPR121.updateAll()`: iterate electrodes
`i = 0, 1, ..., 11` in ascending order, starting from `note` register value
`r`.  Result: (final `note` register, bytes written, reports printed). -/
def loopCycle (mode : InstrumentMode) (prev cur : Nat → Bool) (r : Nat) :
    Nat × List Nat × List (Nat × String) :=
  (List.range 12).foldl (loopStep mode prev cur) (r, [], [])

/-- Bytes emitted for a single electrode during a pass. -/
def electrodeBytes (mode : InstrumentMode) (prev cur : Nat → Bool) (i : Nat) :
    List Nat :=
  (loopIter mode prev cur i).2.1

/-- Reports printed for a single electrode during a pass. -/
def electrodeReports (mode : InstrumentMode) (prev cur : Nat → Bool) (i : Nat) :
    List (Nat × String) :=
  (loopIter mode prev cur i).2.2

/-- Every note the mapper can produce is a valid MIDI data byte:
both tables hold values below 128 and the out-of-range default is 0. -/
lemma mapNote_lt (mode : InstrumentMode) (i : Nat) : mapNote mode i < 128 := by
  unfold mapNote
  have h : 11 - i < 12 := by omega
  revert h
  generalize 11 - i = k
  intro h
  interval_cases k <;> cases mode <;> decide

/-- The bytes a loop pass writes are the per-electrode emissions for
`i = 0, ..., 11` concatenated in ascending electrode order, and likewise for
the reports; neither depends on the incoming `note` register value. -/
lemma loopFold_spec (mode : InstrumentMode) (prev cur : Nat → Bool)
    (l : List Nat) :
    ∀ (r : Nat) (bs : List Nat) (rs : List (Nat × String)),
      (l.foldl (loopStep mode prev cur) (r, bs, rs)).2.1 =
          bs ++ l.flatMap (electrodeBytes mode prev cur) ∧
        (l.foldl (loopStep mode prev cur) (r, bs, rs)).2.2 =
          rs ++ l.flatMap (electrodeReports mode prev cur) := by
  induction l with
  | nil => intro r bs rs; simp
  | cons a t ih =>
      intro r bs rs
      have hstep : loopStep mode prev cur (r, bs, rs) a =
          ((loopIter mode prev cur a).1,
            bs ++ electrodeBytes mode prev cur a,
            rs ++ electrodeReports mode prev cur a) := rfl
      simp only [List.foldl_cons, List.flatMap_cons, hstep]
      rcases ih (loopIter mode prev cur a).1
          (bs ++ electrodeBytes mode prev cur a)
          (rs ++ electrodeReports mode prev cur a) with ⟨h1, h2⟩
      rw [h1, h2]
      simp [List.append_assoc]

lemma loopCycle_bytes (mode : InstrumentMode) (prev cur : Nat → Bool)
    (r : Nat) :
    (loopCycle mode prev cur r).2.1 =
      (List.range 12).flatMap (electrodeBytes mode prev cur) := by
  have h := loopFold_spec mode prev cur (List.range 12) r [] []
  simpa [loopCycle] using h.1

lemma loopCycle_reports (mode : InstrumentMode) (prev cur : Nat → Bool)
    (r : Nat) :
    (loopCycle mode prev cur r).2.2 =
      (List.range 12).flatMap (electrodeReports mode prev cur) := by
  have h := loopFold_spec mode prev cur (List.range 12) r [] []
  simpa [loopCycle] using h.2

/-- Modelled from the spec: the error kinds of §7 that are visible to the
core (the sensing driver and the exposed mapper interface are not under
`src/`): a failed sensor poll and an out-of-range electrode index. -/
inductive CoreError
  | sensorReadError
  | invalidElectrode
deriving DecidableEq, Repr

/-- Modelled from the spec: the Touch State Tracker's fallible sensor read
(§4.1, §7).  A failed read of the touch mask (`none`) is surfaced as
`SensorReadError`; a successful read yields the current mask unchanged —
no default mask is ever substituted. -/
def poll (read : Option (Nat → Bool)) : Except CoreError (Nat → Bool) :=
  match read with
  | none => Except.error CoreError.sensorReadError
  | some cur => Except.ok cur

/-- Modelled from the spec: one dispatcher tick over the fallible sensor
read — on a successful read it runs the `loop()` pass against the retained
previous mask, on a failed read it propagates the error upward and emits
nothing. -/
def loopCycleChecked (mode : InstrumentMode) (read : Option (Nat → Bool))
    (prev : Nat → Bool) (r : Nat) :
    Except CoreError (Nat × List Nat × List (Nat × String)) :=
  match poll read with
  | Except.error e => Except.error e
  | Except.ok cur => Except.ok (loopCycle mode prev cur r)

/-- Modelled from the spec: the exposed Note Mapper interface (§4.2, §7),
which rejects an electrode index outside [0, 11] with `InvalidElectrode`
instead of indexing out of bounds, and otherwise performs the reversed
table lookup of the loop body. -/
def mapNoteChecked (mode : InstrumentMode) (e : Nat) : Except CoreError Nat :=
  if e < 12 then Except.ok (mapNote mode e) else Except.error CoreError.invalidElectrode

example : talkMIDI 0xC0 5 0 = [0xC0, 0x05] := by decide
example : noteOn 0 60 0x60 = [0x90, 0x3C, 0x60] := by decide
example : setupMidi .percussion 5 =
    [0xB0, 0x07, 0x7F, 0xB0, 0x00, 0x78, 0xC0, 0x05] := by decide
example :
    (loopCycle .melodic (fun _ => false) (fun i => i == 11) 0).2.1 =
      [0x90, 0x3C, 0x60] := by decide

/-- C1: for every call `talkMIDI(cmd, data1, data2)`, the bytes written to
the serial sink are exactly cmd, then data1, then data2 if and only if
`(cmd & 0xF0) <= 0xB0`; in particular `talkMIDI(0xC0, 5, 0)` writes exactly
the two bytes `[0xC0, 0x05]` and no data2 byte. -/
theorem talkMIDI_framing :
    (∀ cmd data1 data2 : Nat,
      (talkMIDI cmd data1 data2 = [cmd, data1, data2] ↔ cmd &&& 0xF0 ≤ 0xB0) ∧
      (talkMIDI cmd data1 data2 = [cmd, data1] ↔ ¬ (cmd &&& 0xF0 ≤ 0xB0))) ∧
    talkMIDI 0xC0 5 0 = [0xC0, 0x05] := by
  refine ⟨fun cmd data1 data2 => ⟨?_, ?_⟩, by decide⟩ <;>
    by_cases h : cmd &&& 0xF0 ≤ 0xB0 <;> simp [talkMIDI, h]

/-- Witness for C1: at `cmd = 0x90` the condition holds and all three bytes
are written unchanged. -/
theorem talkMIDI_framing_witness : talkMIDI 0x90 1 2 = [0x90, 1, 2] :=
  (talkMIDI_framing.1 0x90 1 2).1.mpr (by decide)

/-- C3: for every electrode index `e` in [0, 11] the mapper returns the
entry at index `11 - e` of the mode's note table (an in-bounds index of the
12-entry table); melodic electrode 11 ↦ 60, electrode 0 ↦ 71; percussion
electrode 11 ↦ 49, electrode 0 ↦ 58. -/
theorem mapNote_reversal :
    (∀ (mode : InstrumentMode) (e : Nat), e < 12 →
        11 - e < (noteTable mode).length ∧
        mapNote mode e = (noteTable mode).getD (11 - e) 0) ∧
    mapNote .melodic 11 = 60 ∧ mapNote .melodic 0 = 71 ∧
    mapNote .percussion 11 = 49 ∧ mapNote .percussion 0 = 58 := by
  refine ⟨fun mode e he => ⟨?_, rfl⟩, by decide, by decide, by decide, by decide⟩
  cases mode <;> simp [noteTable, MELODIC_NOTES, PERCUSSION_NOTES] <;> omega

/-- Witness for C3: electrode 3 is in range, its reversed index is in
bounds, and the mapper reads the table at index 8. -/
theorem mapNote_reversal_witness :
    11 - 3 < (noteTable .melodic).length ∧
      mapNote .melodic 3 = (noteTable .melodic).getD (11 - 3) 0 :=
  mapNote_reversal.1 .melodic 3 (by decide)

/-- C4: `setupMidi` emits exactly three messages in order — channel volume
127, bank select (0x00 melodic / 0x78 percussion), then the two-byte
program change with the configured program number; in percussion mode with
program number 5 the bytes are `[0xB0,0x07,0x7F] [0xB0,0x00,0x78]
[0xC0,0x05]`. -/
theorem setupMidi_sequence :
    (∀ instrument : Nat,
        setupMidi .melodic instrument =
          [0xB0, 0x07, 0x7F] ++ [0xB0, 0x00, 0x00] ++ [0xC0, instrument] ∧
        setupMidi .percussion instrument =
          [0xB0, 0x07, 0x7F] ++ [0xB0, 0x00, 0x78] ++ [0xC0, instrument]) ∧
    setupMidi .percussion 5 =
      [0xB0, 0x07, 0x7F] ++ [0xB0, 0x00, 0x78] ++ [0xC0, 0x05] := by
  exact ⟨fun instrument => ⟨rfl, rfl⟩, rfl⟩

/-- C6: for channel < 16 (and data bytes in range), `noteOn` emits status
`0x90 | channel` and `noteOff` emits status `0x80 | channel`, each followed
by the note and velocity bytes; `noteOn(0, 60, 0x60)` serializes to exactly
`[0x90, 0x3C, 0x60]`. -/
theorem noteOnOff_status :
    (∀ channel note vel : Nat, channel < 16 → note < 128 → vel < 128 →
        noteOn channel note vel = [0x90 ||| channel, note, vel] ∧
        noteOff channel note vel = [0x80 ||| channel, note, vel]) ∧
    noteOn 0 60 0x60 = [0x90, 0x3C, 0x60] := by
  refine ⟨fun channel note vel hc hn hv => ⟨?_, ?_⟩, by decide⟩
  · have h : (0x90 ||| channel) &&& 0xF0 ≤ 0xB0 := by
      interval_cases channel <;> decide
    simp [noteOn, talkMIDI, h]
  · have h : (0x80 ||| channel) &&& 0xF0 ≤ 0xB0 := by
      interval_cases channel <;> decide
    simp [noteOff, talkMIDI, h]

/-- Witness for C6: channel 3, note 100, velocity 50 are in range and the
two messages carry the expected status bytes. -/
theorem noteOnOff_status_witness :
    noteOn 3 100 50 = [0x90 ||| 3, 100, 50] ∧
      noteOff 3 100 50 = [0x80 ||| 3, 100, 50] :=
  noteOnOff_status.1 3 100 50 (by decide) (by decide) (by decide)

/-- C10: `talkMIDI` performs no validation, masking or clamping — for every
byte-valued arguments the transmitted bytes equal the arguments unchanged
(first two always, data2 exactly when the command class keeps it), and a
data byte of 128 or more is written as-is, e.g. `talkMIDI(0x90, 200, 255)`
writes `[0x90, 200, 255]`. -/
theorem talkMIDI_no_validation :
    (∀ cmd data1 data2 : Nat, cmd < 256 → data1 < 256 → data2 < 256 →
        (talkMIDI cmd data1 data2).take 2 = [cmd, data1] ∧
        (cmd &&& 0xF0 ≤ 0xB0 → talkMIDI cmd data1 data2 = [cmd, data1, data2]) ∧
        (0xB0 < cmd &&& 0xF0 → talkMIDI cmd data1 data2 = [cmd, data1])) ∧
    talkMIDI 0x90 200 255 = [0x90, 200, 255] := by
  refine ⟨fun cmd data1 data2 hc h1 h2 => ⟨?_, fun h => ?_, fun h => ?_⟩, by decide⟩
  · by_cases h : cmd &&& 0xF0 ≤ 0xB0 <;> simp [talkMIDI, h]
  · simp [talkMIDI, h]
  · simp [talkMIDI, Nat.not_le.mpr h]

/-- Witness for C10: a data1 byte of 200 (≥ 128) passes through unmasked. -/
theorem talkMIDI_no_validation_witness :
    (talkMIDI 0x80 200 7).take 2 = [0x80, 200] :=
  (talkMIDI_no_validation.1 0x80 200 7 (by decide) (by decide) (by decide)).1

/-- C2: each tick iterates electrodes in ascending order 0..11, emitting for
a rising edge `noteOn(0, mapped note, 0x60)` plus an "on" report, for a
falling edge the symmetric `noteOff` and "off" report, and nothing for an
electrode with no edge; for electrode 11 going untouched → touched →
untouched over three successive polls in melodic mode the bytes are
`[0x90,0x3C,0x60]`, then nothing, then `[0x80,0x3C,0x60]`. -/
theorem loop_dispatch :
    (∀ (mode : InstrumentMode) (prev cur : Nat → Bool) (r : Nat),
        (loopCycle mode prev cur r).2.1 =
            (List.range 12).flatMap (electrodeBytes mode prev cur) ∧
          (loopCycle mode prev cur r).2.2 =
            (List.range 12).flatMap (electrodeReports mode prev cur)) ∧
    (∀ (mode : InstrumentMode) (prev cur : Nat → Bool) (i : Nat),
        electrodeBytes mode prev cur i =
            (if isNewTouch prev cur i then noteOn 0 (mapNote mode i) 0x60
             else if isNewRelease prev cur i then
               noteOff 0 (mapNote mode i) 0x60
             else []) ∧
          electrodeReports mode prev cur i =
            (if isNewTouch prev cur i then [(mapNote mode i, "on")]
             else if isNewRelease prev cur i then [(mapNote mode i, "off")]
             else [])) ∧
    ((loopCycle .melodic (fun _ => false) (fun j => j == 11) 0).2.1 =
        [0x90, 0x3C, 0x60] ∧
      (loopCycle .melodic (fun j => j == 11) (fun j => j == 11)
          (loopCycle .melodic (fun _ => false) (fun j => j == 11) 0).1).2.1 =
        [] ∧
      (loopCycle .melodic (fun j => j == 11) (fun _ => false)
          (loopCycle .melodic (fun j => j == 11) (fun j => j == 11)
            (loopCycle .melodic (fun _ => false) (fun j => j == 11) 0).1).1).2.1 =
        [0x80, 0x3C, 0x60]) := by
  refine ⟨fun mode prev cur r => ⟨loopCycle_bytes mode prev cur r,
      loopCycle_reports mode prev cur r⟩,
    fun mode prev cur i => ⟨?_, ?_⟩, by decide, by decide, by decide⟩ <;>
  · by_cases ht : isNewTouch prev cur i <;>
      by_cases hr : isNewRelease prev cur i <;>
      simp [electrodeBytes, electrodeReports, loopIter, ht, hr,
        MPR121_DATASTREAM_ENABLE]

/-- C5: a single poll cycle never yields both a rising and a falling edge
for the same electrode, and the per-electrode emission never contains both
a note-on status byte (0x90) and a note-off status byte (0x80). -/
theorem edge_exclusive :
    ∀ (prev cur : Nat → Bool) (i : Nat),
      (isNewTouch prev cur i && isNewRelease prev cur i) = false ∧
      ∀ mode : InstrumentMode,
        ((electrodeBytes mode prev cur i).contains 0x90 &&
          (electrodeBytes mode prev cur i).contains 0x80) = false := by
  intro prev cur i
  constructor
  · rcases hc : cur i <;> rcases hp : prev i <;>
      simp [isNewTouch, isNewRelease, hc, hp]
  · intro mode
    have hv := mapNote_lt mode i
    have hv1 : ¬ (0x90 = mapNote mode i) := by omega
    have hv2 : ¬ (0x80 = mapNote mode i) := by omega
    rcases hc : cur i <;> rcases hp : prev i <;>
      simp [electrodeBytes, loopIter, isNewTouch, isNewRelease, hc, hp,
        noteOn, noteOff, talkMIDI, MPR121_DATASTREAM_ENABLE, hv1, hv2]

/-- C7: a failed sensor poll is surfaced to the dispatcher as a
distinguishable SensorReadError — it is never silently treated as an
all-untouched read; a successful read is processed unchanged. -/
theorem sensor_failure_surfaced :
    ∀ (mode : InstrumentMode) (prev : Nat → Bool) (r : Nat),
      loopCycleChecked mode none prev r =
          Except.error CoreError.sensorReadError ∧
        (∀ m : Nat → Bool,
          loopCycleChecked mode (some m) prev r =
            Except.ok (loopCycle mode prev m r)) ∧
        loopCycleChecked mode none prev r ≠
          loopCycleChecked mode (some (fun _ => false)) prev r := by
  intro mode prev r
  exact ⟨rfl, fun m => rfl, by simp [loopCycleChecked, poll]⟩

/-- Witness for C7: in melodic mode from an all-untouched retained mask, a
failed poll yields the error value, distinct from any all-untouched
processing. -/
theorem sensor_failure_surfaced_witness :
    loopCycleChecked .melodic none (fun _ => false) 0 =
        Except.error CoreError.sensorReadError ∧
      (∀ m : Nat → Bool,
        loopCycleChecked .melodic (some m) (fun _ => false) 0 =
          Except.ok (loopCycle .melodic (fun _ => false) m 0)) ∧
      loopCycleChecked .melodic none (fun _ => false) 0 ≠
        loopCycleChecked .melodic (some (fun _ => false)) (fun _ => false) 0 :=
  sensor_failure_surfaced .melodic (fun _ => false) 0

/-- C8: the exposed mapper interface rejects every electrode index outside
[0, 11] with InvalidElectrode instead of indexing out of bounds, and for
indices inside [0, 11] the access at `11 - e` is within the 12-entry note
table. -/
theorem mapper_range_check :
    (∀ (mode : InstrumentMode) (e : Nat), 12 ≤ e →
        mapNoteChecked mode e = Except.error CoreError.invalidElectrode) ∧
    (∀ (mode : InstrumentMode) (e : Nat), e < 12 →
        11 - e < 12 ∧ 11 - e < (noteTable mode).length ∧
        mapNoteChecked mode e = Except.ok (mapNote mode e)) := by
  constructor
  · intro mode e he
    simp [mapNoteChecked, Nat.not_lt.mpr he]
  · intro mode e he
    refine ⟨by omega, ?_, by simp [mapNoteChecked, he]⟩
    cases mode <;> simp [noteTable, MELODIC_NOTES, PERCUSSION_NOTES] <;> omega

/-- Witness for C8: index 20 is rejected, index 0 is accepted with an
in-bounds reversed table access. -/
theorem mapper_range_check_witness :
    mapNoteChecked .percussion 20 =
        Except.error CoreError.invalidElectrode ∧
      (11 - 0 < 12 ∧ 11 - 0 < (noteTable .percussion).length ∧
        mapNoteChecked .percussion 0 = Except.ok (mapNote .percussion 0)) :=
  ⟨mapper_range_check.1 .percussion 20 (by decide),
    mapper_range_check.2 .percussion 0 (by decide)⟩

/-- C9: the shared `note` global is reassigned from the mode's table at the
top of every electrode iteration before the edge branch, so the bytes and
reports of a pass do not depend on the register's incoming value, and the
note carried by electrode i's falling-edge note-off always equals the table
entry for i — the same pitch as i's rising-edge note-on. -/
theorem note_register_consistency :
    ∀ (mode : InstrumentMode) (prev cur : Nat → Bool) (i : Nat) (r r' : Nat),
      (loopCycle mode prev cur r).2 = (loopCycle mode prev cur r').2 ∧
        (isNewTouch prev cur i = true →
          (loopIter mode prev cur i).2.1 = noteOn 0 (mapNote mode i) 0x60) ∧
        (isNewRelease prev cur i = true →
          (loopIter mode prev cur i).2.1 = noteOff 0 (mapNote mode i) 0x60) := by
  intro mode prev cur i r r'
  refine ⟨?_, fun ht => ?_, fun hr => ?_⟩
  · have h1 := loopCycle_bytes mode prev cur r
    have h2 := loopCycle_bytes mode prev cur r'
    have h3 := loopCycle_reports mode prev cur r
    have h4 := loopCycle_reports mode prev cur r'
    exact Prod.ext (h1.trans h2.symm) (h3.trans h4.symm)
  · simp [loopIter, ht]
  · have ht : ¬ isNewTouch prev cur i := by
      rcases hc : cur i <;> rcases hp : prev i <;>
        simp_all [isNewTouch, isNewRelease]
    simp [loopIter, ht, hr]

/-- Witness for C9: with electrode 11 newly released, the note-off carries
the melodic table entry for electrode 11 (note 60) whatever the register
held before, and two different initial register values give the same
emissions. -/
theorem note_register_consistency_witness :
    (loopCycle .melodic (fun j => j == 11) (fun _ => false) 0).2 =
        (loopCycle .melodic (fun j => j == 11) (fun _ => false) 7).2 ∧
      (loopIter .melodic (fun j => j == 11) (fun _ => false) 11).2.1 =
        noteOff 0 (mapNote .melodic 11) 0x60 :=
  ⟨(note_register_consistency .melodic (fun j => j == 11) (fun _ => false)
      11 0 7).1,
    (note_register_consistency .melodic (fun j => j == 11) (fun _ => false)
      11 0 7).2.2 (by decide)⟩

end MidiPiano
